import Mathlib

/-!
Verification of the volatility-reference engine of the `ivrv` repository.

The definitions below are a shallow embedding of `src/server-v3.ts` (the
authoritative variant of the engine): expiry date math, ATM strike
selection, the implied-move model, snapshot construction, the realtime
comparator, and the bounded history store.

Conventions of the embedding:
* instants are UTC epoch milliseconds, modelled as `Int`; on `Int` the
  operators `/` and `%` are Euclidean (remainder is non-negative for a
  positive divisor), which agrees with the floor-based day/weekday math
  of the JavaScript `Date` class for all instants, before and after 1970;
* JavaScript `Date` calendar conversions are modelled with the standard
  civil-from-days / days-from-civil algorithms over the proleptic
  Gregorian calendar, which is exactly the calendar `Date` uses;
* market quantities (prices, implied volatilities) are modelled as `ℚ`
  where the source only moves them around or compares them, and as `ℝ`
  where the source applies `Math.sqrt`;
* the JavaScript semantics of `x || 0` (zero and absent both fall through)
  and of division by zero (signed infinities) are modelled explicitly
  where they matter to a claim.
-/

/-! ## Time model -/

def msPerHour : Int := 3600000

def msPerDay : Int := 86400000

/-- Epoch milliseconds of the most recent UTC midnight at or before `t`
(what `setUTCHours(0,0,0,0)` produces). -/
def dayStart (t : Int) : Int := t - t % msPerDay

/-- Epoch milliseconds of 08:00 UTC on the calendar day of `t`
(what `setUTCHours(8,0,0,0)` produces). -/
def eightAM (t : Int) : Int := dayStart t + 8 * msPerHour

/-- The epoch day number containing the instant `t` (floor division). -/
def epochDay (t : Int) : Int := t / msPerDay

/-- UTC day of week of the instant `t`, using the JavaScript encoding
0 = Sunday … 6 = Saturday (epoch day 0, 1970-01-01, was a Thursday). -/
def dayOfWeek (t : Int) : Int := (epochDay t + 4) % 7

/-! ## Civil calendar (proleptic Gregorian, as used by JavaScript `Date`) -/

/-- Epoch day number of the civil date `(y, m, d)` with month `m ∈ 1..12`
(Howard Hinnant's `days_from_civil` algorithm, floor-division form). -/
def daysFromCivil (y m d : Int) : Int :=
  let y2 := if m ≤ 2 then y - 1 else y
  let era := y2 / 400
  let yoe := y2 - era * 400
  let mp := if 2 < m then m - 3 else m + 9
  let doy := (153 * mp + 2) / 5 + d - 1
  let doe := yoe * 365 + yoe / 4 - yoe / 100 + doy
  era * 146097 + doe - 719468

/-- Civil date `(year, month 1..12, day 1..31)` of an epoch day number
(Howard Hinnant's `civil_from_days` algorithm). -/
def civilFromDays (z0 : Int) : Int × Int × Int :=
  let z := z0 + 719468
  let era := z / 146097
  let doe := z % 146097
  let yoe := (doe - doe / 1460 + doe / 36524 - doe / 146096) / 365
  let y := yoe + era * 400
  let doy := doe - (365 * yoe + yoe / 4 - yoe / 100)
  let mp := (5 * doy + 2) / 153
  let d := doy - (153 * mp + 2) / 5 + 1
  let m := if mp < 10 then mp + 3 else mp - 9
  (if m ≤ 2 then y + 1 else y, m, d)

/-- JavaScript `Date.UTC(y, m, d)` as an epoch day number: the month `m` is
0-based and may lie outside `0..11`, and the day `d` may lie outside the
month (both are normalized by carrying, exactly as `Date.UTC` does). -/
def jsUTCDays (y m d : Int) : Int :=
  daysFromCivil (y + m / 12) (m % 12 + 1) 1 + (d - 1)

/-- JavaScript `getUTCFullYear()` of an epoch-millisecond instant. -/
def getUTCFullYear (t : Int) : Int := (civilFromDays (epochDay t)).1

/-- JavaScript `getUTCMonth()` (0-based month) of an instant. -/
def getUTCMonth (t : Int) : Int := (civilFromDays (epochDay t)).2.1 - 1

/-- JavaScript `getUTCDate()` (1-based day of month) of an instant. -/
def getUTCDate (t : Int) : Int := (civilFromDays (epochDay t)).2.2

/-- JavaScript `d.setUTCMonth(m)`: keep the year, day of month and time of
day, replace the (0-based) month by `m`, normalizing overflow by carrying —
so a day of month that does not exist in the target month rolls into the
following month, e.g. Jan 31 `setUTCMonth(+1)` yields Mar 3. -/
def jsSetUTCMonth (t m : Int) : Int :=
  jsUTCDays (getUTCFullYear t) m (getUTCDate t) * msPerDay + t % msPerDay

/-- Convenience constructor for stating concrete instants:
epoch milliseconds of `y-m-d h:00:00 UTC` with civil month `m ∈ 1..12`. -/
def utcMs (y m d h : Int) : Int := daysFromCivil y m d * msPerDay + h * msPerHour

/-! ## ExpiryCalculator (`src/server-v3.ts`, `getNextFriday`,
`getLastFridayOfMonth`, `getMonthlyExpiry`) -/

/-- Model of `getNextFriday` (`src/server-v3.ts:81`), with the ambient
`new Date()` made an explicit argument `now`: the next Friday 08:00 UTC,
rolling to next week when `now` is a Friday at or after 08:00 UTC. -/
def getNextFriday (now : Int) : Int :=
  let d := (5 - dayOfWeek now + 7) % 7
  if d = 0 then
    if eightAM now ≤ now then eightAM now + 7 * msPerDay else eightAM now
  else
    eightAM now + d * msPerDay

/-- Model of `getLastFridayOfMonth` (`src/server-v3.ts:108`): last Friday of
the given (0-based) month at 08:00 UTC, found by walking back from the last
calendar day of the month. -/
def getLastFridayOfMonth (year month : Int) : Int :=
  let lastDay := jsUTCDays year (month + 1) 0
  let daysToSubtract := ((lastDay + 4) % 7 + 2) % 7
  (lastDay - daysToSubtract) * msPerDay + 8 * msPerHour

/-- Model of `getMonthlyExpiry` (`src/server-v3.ts:125`): last Friday of the
current month, or of the next month when it has already passed. -/
def getMonthlyExpiry (now : Int) : Int :=
  let thisMonthExpiry := getLastFridayOfMonth (getUTCFullYear now) (getUTCMonth now)
  if thisMonthExpiry ≤ now then
    getLastFridayOfMonth (getUTCFullYear now) (getUTCMonth now + 1)
  else
    thisMonthExpiry

/-- The monthly expiry actually used by `createDailySnapshot`
(`src/server-v3.ts:256-263`): when the weekly and monthly expiries coincide,
advance a `Date` holding the monthly expiry by one month with
`setUTCMonth(getUTCMonth()+1)` and take the last Friday of the month that
date lands in. -/
def finalMonthlyExpiry (now : Int) : Int :=
  let nextFriday := getNextFriday now
  let monthlyExpiry := getMonthlyExpiry now
  if nextFriday = monthlyExpiry then
    let nextMonth := jsSetUTCMonth monthlyExpiry (getUTCMonth monthlyExpiry + 1)
    getLastFridayOfMonth (getUTCFullYear nextMonth) (getUTCMonth nextMonth)
  else
    monthlyExpiry

/-! ## ATMSelector (`src/server-v3.ts`, `findATMStrike`) -/

/-- An entry of the option chain as delivered by the instruments feed:
only the fields the engine reads. -/
structure OptionQuote where
  instrument_name : String
  expiration_timestamp : Int
  strike : ℚ
deriving DecidableEq

/-- Model of `findATMStrike` (`src/server-v3.ts:167`): filter the chain to
the target expiry with a one-hour tolerance, then scan for the strike
closest to spot, keeping the incumbent on ties. -/
def findATMStrike (options : List OptionQuote) (expiryTime : Int) (spotPrice : ℚ) :
    Option OptionQuote :=
  let expiryOptions :=
    options.filter (fun opt => |opt.expiration_timestamp - expiryTime| < 3600000)
  match expiryOptions with
  | [] => none
  | first :: _ =>
    some (expiryOptions.foldl
      (fun closest opt =>
        if |opt.strike - spotPrice| < |closest.strike - spotPrice| then opt
        else closest)
      first)

/-- The quote `q` is the first-encountered minimizer of `|strike - spot|`
in the list `l`: every quote before it is strictly farther from spot, and
every quote after it is at least as far. -/
def IsFirstClosest (spotPrice : ℚ) (l : List OptionQuote) (q : OptionQuote) : Prop :=
  ∃ l₁ l₂, l = l₁ ++ q :: l₂ ∧
    (∀ r ∈ l₁, |q.strike - spotPrice| < |r.strike - spotPrice|) ∧
    (∀ r ∈ l₂, |q.strike - spotPrice| ≤ |r.strike - spotPrice|)

/-! ## ImpliedMoveModel (`src/server-v3.ts`, `getOptionData`) -/

/-- The three implied-volatility fields of a Deribit ticker payload; a
`none` models a field that is absent from the JSON (`undefined`). -/
structure Ticker where
  bid_iv : Option ℚ
  ask_iv : Option ℚ
  mark_iv : Option ℚ
deriving DecidableEq

/-- JavaScript `x || fallback` applied to a numeric JSON field: absent
(`undefined`) and `0` are both falsy and fall through to the fallback. -/
def jsOr (x : Option ℚ) (fallback : ℚ) : ℚ :=
  match x with
  | none => fallback
  | some v => if v = 0 then fallback else v

/-- The record built by `getOptionData` (`src/server-v3.ts:197`).  The
derived square-root fields (`impliedMove`, `impliedDailyMove` and their
percent forms) are modelled as the real-valued functions `impliedMove`,
`impliedDailyMove`, `optionImpliedDailyMove` below, and the formatted
`expiry` display string is omitted (no claim concerns it). -/
structure OptionData where
  instrumentName : String
  expiryTimestamp : Int
  strike : ℚ
  markIV : ℚ
  bidIV : ℚ
  askIV : ℚ
  atmIV : ℚ
  underlyingPrice : ℚ
  hoursToExpiry : ℚ
  daysToExpiry : ℚ
deriving DecidableEq

/-- Model of `getOptionData` (`src/server-v3.ts:197-235`), with the ticker
fetch and `Date.now()` made explicit arguments. -/
def getOptionData (instrumentName : String) (ticker : Ticker) (strike : ℚ)
    (expiry now : Int) (spotPrice : ℚ) : OptionData :=
  let bidIV := jsOr ticker.bid_iv 0
  let askIV := jsOr ticker.ask_iv 0
  let markIV := jsOr ticker.mark_iv ((bidIV + askIV) / 2)
  let atmIV := (bidIV + askIV) / 2
  let hoursToExpiry := ((expiry - now : Int) : ℚ) / 3600000
  let daysToExpiry := hoursToExpiry / 24
  { instrumentName, expiryTimestamp := expiry, strike, markIV, bidIV, askIV, atmIV,
    underlyingPrice := spotPrice, hoursToExpiry, daysToExpiry }

/-- Model of the implied DAILY move of `src/server-v3.ts:215`:
`spotPrice * (atmIV / 100) / Math.sqrt(365)`. -/
noncomputable def impliedDailyMove (spotPrice atmIV : ℝ) : ℝ :=
  spotPrice * (atmIV / 100) / Real.sqrt 365

/-- Model of the implied move to expiry of `src/server-v3.ts:211`:
`spotPrice * (atmIV / 100) * Math.sqrt(yearsToExpiry)`. -/
noncomputable def impliedMove (spotPrice atmIV yearsToExpiry : ℝ) : ℝ :=
  spotPrice * (atmIV / 100) * Real.sqrt yearsToExpiry

/-- The `impliedDailyMove` field of the record returned by `getOptionData`,
as a function of the record. -/
noncomputable def optionImpliedDailyMove (o : OptionData) : ℝ :=
  impliedDailyMove (o.underlyingPrice : ℝ) (o.atmIV : ℝ)

/-! ## RealtimeComparator (`src/server-v3.ts`, `calculateRealtime`) -/

/-- The value of a JavaScript floating-point division as far as sign and
finiteness are concerned: a finite rational, a signed infinity, or NaN. -/
inductive JsVal where
  | fin (q : ℚ)
  | posInf
  | negInf
  | nan
deriving DecidableEq

/-- JavaScript division `a / b` of finite numbers: division by zero yields
a signed infinity (or NaN for `0 / 0`), never an exception. -/
def jsDiv (a b : ℚ) : JsVal :=
  if b = 0 then
    if 0 < a then JsVal.posInf else if a < 0 then JsVal.negInf else JsVal.nan
  else JsVal.fin (a / b)

/-- JavaScript `v > c` for `v` a division result: infinities compare
through, NaN compares false. -/
def jsGT (v : JsVal) (c : ℚ) : Bool :=
  match v with
  | JsVal.fin q => decide (c < q)
  | JsVal.posInf => true
  | JsVal.negInf => false
  | JsVal.nan => false

/-- JavaScript `v < c` for `v` a division result: infinities compare
through, NaN compares false. -/
def jsLT (v : JsVal) (c : ℚ) : Bool :=
  match v with
  | JsVal.fin q => decide (q < c)
  | JsVal.posInf => false
  | JsVal.negInf => true
  | JsVal.nan => false

inductive VolStatus where
  | HIGH_VOL
  | NORMAL
  | LOW_VOL
deriving DecidableEq

/-- The comparison produced by `calculateRealtime` (`src/server-v3.ts:331`).
The two `signal` display strings are omitted (they are `toFixed`-formatted
templates of the ratio and status; no claim concerns them). -/
structure RealtimeComparison where
  timestamp : Int
  currentPrice : ℚ
  dayHigh : ℚ
  dayLow : ℚ
  actualRange : ℚ
  actualRangePercent : ℚ
  weeklySurpriseRatio : JsVal
  weeklyStatus : VolStatus
  monthlySurpriseRatio : JsVal
  monthlyStatus : VolStatus
  timeElapsed : ℚ
deriving DecidableEq

/-- Model of `calculateRealtime` (`src/server-v3.ts:331-388`), with its
data fetches made explicit arguments: `snapshotSpot`, `weeklyIdm` and
`monthlyIdm` are the snapshot's stored `spotPrice` and per-leg
`impliedDailyMove` values, `high`/`low` the day's observed range, and
`currentPrice`/`now` the live price and clock. -/
def calculateRealtime (snapshotSpot weeklyIdm monthlyIdm currentPrice high low : ℚ)
    (now snapshotTimestamp : Int) : RealtimeComparison :=
  let actualRange := high - low
  let actualRangePercent := actualRange / snapshotSpot * 100
  let timeElapsed := ((now - snapshotTimestamp : Int) : ℚ) / 3600000
  let weeklySurpriseRatio := jsDiv actualRange weeklyIdm
  let monthlySurpriseRatio := jsDiv actualRange monthlyIdm
  let weeklyStatus :=
    if jsGT weeklySurpriseRatio (13/10) then VolStatus.HIGH_VOL
    else if jsLT weeklySurpriseRatio (7/10) then VolStatus.LOW_VOL
    else VolStatus.NORMAL
  let monthlyStatus :=
    if jsGT monthlySurpriseRatio (13/10) then VolStatus.HIGH_VOL
    else if jsLT monthlySurpriseRatio (7/10) then VolStatus.LOW_VOL
    else VolStatus.NORMAL
  { timestamp := now, currentPrice, dayHigh := high, dayLow := low, actualRange,
    actualRangePercent, weeklySurpriseRatio, weeklyStatus, monthlySurpriseRatio,
    monthlyStatus, timeElapsed }

/-! ## HistoryStore (`src/server-v3.ts`, `saveDailyRecord`,
`calculateHistoricalStats`) -/

structure DailyRecord where
  date : String
  weeklySurprise : ℚ
  monthlySurprise : ℚ
  btcPrice : ℚ
deriving DecidableEq

/-- The `findIndex`/`splice(i, 1)` step of `saveDailyRecord`: remove the
first record carrying the given date, if any. -/
def removeDateRecord : List DailyRecord → String → List DailyRecord
  | [], _ => []
  | r :: rs, d => if r.date = d then rs else r :: removeDateRecord rs d

/-- Model of `saveDailyRecord` (`src/server-v3.ts:430-443`): drop any
existing record for the date, push the new record, then `shift()` off the
oldest record if more than 30 remain. -/
def saveDailyRecord (records : List DailyRecord) (date : String)
    (weeklySurprise monthlySurprise btcPrice : ℚ) : List DailyRecord :=
  let afterRemove := removeDateRecord records date
  let afterPush := afterRemove ++ [⟨date, weeklySurprise, monthlySurprise, btcPrice⟩]
  if 30 < afterPush.length then afterPush.drop 1 else afterPush

inductive Trend where
  | UP
  | DOWN
  | FLAT
deriving DecidableEq

structure HistoricalStats where
  weeklyAvgSurprise : ℚ
  weeklyTrend : Trend
  monthlyAvgSurprise : ℚ
  monthlyTrend : Trend
  daysTracked : Nat
deriving DecidableEq

/-- Model of `calculateHistoricalStats` (`src/server-v3.ts:448-496`):
sentinel below 3 records; otherwise simple means over all records, and a
3-vs-3 window trend (`slice(-3)` against `slice(-6, -3)`) once at least 6
records exist, with threshold 0.15 = 3/20. -/
def calculateHistoricalStats (records : List DailyRecord) : HistoricalStats :=
  if records.length < 3 then
    { weeklyAvgSurprise := 0, weeklyTrend := Trend.FLAT, monthlyAvgSurprise := 0,
      monthlyTrend := Trend.FLAT, daysTracked := 0 }
  else
    let weeklySum := records.foldl (fun sum r => sum + r.weeklySurprise) 0
    let monthlySum := records.foldl (fun sum r => sum + r.monthlySurprise) 0
    let weeklyAvgSurprise := weeklySum / (records.length : ℚ)
    let monthlyAvgSurprise := monthlySum / (records.length : ℚ)
    let trends :=
      if 6 ≤ records.length then
        let recent3 := records.drop (records.length - 3)
        let older3 := (records.drop (records.length - 6)).take 3
        let weeklyDiff : ℚ :=
          recent3.foldl (fun sum r => sum + r.weeklySurprise) 0 / 3 -
            older3.foldl (fun sum r => sum + r.weeklySurprise) 0 / 3
        let monthlyDiff : ℚ :=
          recent3.foldl (fun sum r => sum + r.monthlySurprise) 0 / 3 -
            older3.foldl (fun sum r => sum + r.monthlySurprise) 0 / 3
        (if 3/20 < weeklyDiff then Trend.UP
         else if weeklyDiff < -(3/20) then Trend.DOWN else Trend.FLAT,
         if 3/20 < monthlyDiff then Trend.UP
         else if monthlyDiff < -(3/20) then Trend.DOWN else Trend.FLAT)
      else (Trend.FLAT, Trend.FLAT)
    { weeklyAvgSurprise, weeklyTrend := trends.1, monthlyAvgSurprise,
      monthlyTrend := trends.2, daysTracked := records.length }

/-! ## SnapshotBuilder (`src/server-v3.ts`, `createDailySnapshot`) and the
refresh endpoint -/

/-- The snapshot of `src/server-v3.ts:27`; the `date` display string is
modelled by the epoch day number of `now` (its civil date is the string). -/
structure DailySnapshot where
  date : Int
  timestamp : Int
  weeklyOption : OptionData
  monthlyOption : OptionData
  spotPrice : ℚ
deriving DecidableEq

/-- Model of `createDailySnapshot` (`src/server-v3.ts:240-307`), with the
spot-price, chain and per-instrument ticker fetches made explicit
arguments.  A missing ATM leg raises, modelled by `Except.error`. -/
def createDailySnapshot (now : Int) (spotPrice : ℚ) (options : List OptionQuote)
    (tickers : String → Ticker) : Except String DailySnapshot :=
  let nextFriday := getNextFriday now
  let monthlyExp := finalMonthlyExpiry now
  match findATMStrike options nextFriday spotPrice,
      findATMStrike options monthlyExp spotPrice with
  | some weeklyATM, some monthlyATM =>
    let weeklyOption := getOptionData weeklyATM.instrument_name
      (tickers weeklyATM.instrument_name) weeklyATM.strike nextFriday now spotPrice
    let monthlyOption := getOptionData monthlyATM.instrument_name
      (tickers monthlyATM.instrument_name) monthlyATM.strike monthlyExp now spotPrice
    Except.ok { date := epochDay now, timestamp := dayStart now, weeklyOption,
                monthlyOption, spotPrice }
  | _, _ => Except.error "Could not find ATM options"

/-- Model of the `/api/refresh` route (`src/server-v3.ts:612-624`): on a
successful build the published snapshot is replaced, on a failed build the
previously published snapshot (if any) is left in place. -/
def refreshSnapshot (prev : Option DailySnapshot) (now : Int) (spotPrice : ℚ)
    (options : List OptionQuote) (tickers : String → Ticker) : Option DailySnapshot :=
  match createDailySnapshot now spotPrice options tickers with
  | Except.ok s => some s
  | Except.error _ => prev

/-- Concrete snapshot value used by witnesses below. -/
def snapZero : DailySnapshot :=
  { date := 0, timestamp := 0,
    weeklyOption := getOptionData "W" ⟨some 50, some 50, some 50⟩ 100 0 0 42000,
    monthlyOption := getOptionData "M" ⟨some 50, some 50, some 50⟩ 100 0 0 42000,
    spotPrice := 42000 }

/-- C7: for every `now`, `getNextFriday now` falls on a Friday at exactly
08:00:00.000 UTC and is strictly later than `now`; if `now` is a Friday at
or after 08:00 UTC it is the following week's Friday, if `now` is a Friday
before 08:00 UTC it is the same day at 08:00 UTC, and otherwise it is the
next Friday after `now` (no Friday-08:00 instant lies strictly between
`now` and the result). -/
theorem C7_getNextFriday_spec (now : Int) :
    dayOfWeek (getNextFriday now) = 5 ∧
    getNextFriday now % msPerDay = 8 * msPerHour ∧
    now < getNextFriday now ∧
    (dayOfWeek now = 5 → eightAM now ≤ now →
      getNextFriday now = eightAM now + 7 * msPerDay) ∧
    (dayOfWeek now = 5 → now < eightAM now → getNextFriday now = eightAM now) ∧
    (∀ t : Int, now < t → t < getNextFriday now →
      ¬(dayOfWeek t = 5 ∧ t % msPerDay = 8 * msPerHour)) := by
  refine ⟨?_, ?_, ?_, ?_, ?_, ?_⟩
  · simp only [getNextFriday, eightAM, dayStart, dayOfWeek, epochDay, msPerDay, msPerHour]
    split_ifs <;> omega
  · simp only [getNextFriday, eightAM, dayStart, dayOfWeek, epochDay, msPerDay, msPerHour]
    split_ifs <;> omega
  · simp only [getNextFriday, eightAM, dayStart, dayOfWeek, epochDay, msPerDay, msPerHour]
    split_ifs <;> omega
  · intro h5 h8
    simp only [getNextFriday, eightAM, dayStart, dayOfWeek, epochDay, msPerDay, msPerHour] at *
    split_ifs <;> omega
  · intro h5 h8
    simp only [getNextFriday, eightAM, dayStart, dayOfWeek, epochDay, msPerDay, msPerHour] at *
    split_ifs <;> omega
  · intro t h1 h2 h3
    obtain ⟨hd, hm⟩ := h3
    simp only [getNextFriday, eightAM, dayStart, dayOfWeek, epochDay, msPerDay, msPerHour] at *
    split_ifs at h2 <;> omega

/-- Witness for C7 at a concrete instant: Friday 2025-01-24 09:00 UTC is a
Friday past the 08:00 cutover, so the next weekly expiry rolls a full week
to 2025-01-31 08:00 UTC. -/
theorem C7_getNextFriday_spec_witness :
    getNextFriday (utcMs 2025 1 24 9) = utcMs 2025 1 31 8 := by
  have h := (C7_getNextFriday_spec (utcMs 2025 1 24 9)).2.2.2.1 (by decide) (by decide)
  rw [h]
  decide

/-- A concrete 30-record store with pairwise-distinct dates, used by the
history-store witnesses below. -/
def recs30 : List DailyRecord :=
  [⟨"01", 1, 1, 1⟩, ⟨"02", 1, 1, 1⟩, ⟨"03", 1, 1, 1⟩, ⟨"04", 1, 1, 1⟩,
   ⟨"05", 1, 1, 1⟩, ⟨"06", 1, 1, 1⟩, ⟨"07", 1, 1, 1⟩, ⟨"08", 1, 1, 1⟩,
   ⟨"09", 1, 1, 1⟩, ⟨"10", 1, 1, 1⟩, ⟨"11", 1, 1, 1⟩, ⟨"12", 1, 1, 1⟩,
   ⟨"13", 1, 1, 1⟩, ⟨"14", 1, 1, 1⟩, ⟨"15", 1, 1, 1⟩, ⟨"16", 1, 1, 1⟩,
   ⟨"17", 1, 1, 1⟩, ⟨"18", 1, 1, 1⟩, ⟨"19", 1, 1, 1⟩, ⟨"20", 1, 1, 1⟩,
   ⟨"21", 1, 1, 1⟩, ⟨"22", 1, 1, 1⟩, ⟨"23", 1, 1, 1⟩, ⟨"24", 1, 1, 1⟩,
   ⟨"25", 1, 1, 1⟩, ⟨"26", 1, 1, 1⟩, ⟨"27", 1, 1, 1⟩, ⟨"28", 1, 1, 1⟩,
   ⟨"29", 1, 1, 1⟩, ⟨"30", 1, 1, 1⟩]

theorem jsOr_some_zero (v : ℚ) : jsOr (some v) 0 = v := by
  simp only [jsOr]
  split_ifs with h
  · exact h.symm
  · rfl

/-- Classification of the three-way status `if` over a finite ratio. -/
theorem volStatus_classify (v : ℚ) :
    ((if jsGT (JsVal.fin v) (13/10) then VolStatus.HIGH_VOL
      else if jsLT (JsVal.fin v) (7/10) then VolStatus.LOW_VOL
      else VolStatus.NORMAL) = VolStatus.HIGH_VOL ↔ 13/10 < v) ∧
    ((if jsGT (JsVal.fin v) (13/10) then VolStatus.HIGH_VOL
      else if jsLT (JsVal.fin v) (7/10) then VolStatus.LOW_VOL
      else VolStatus.NORMAL) = VolStatus.LOW_VOL ↔ v < 7/10) ∧
    ((if jsGT (JsVal.fin v) (13/10) then VolStatus.HIGH_VOL
      else if jsLT (JsVal.fin v) (7/10) then VolStatus.LOW_VOL
      else VolStatus.NORMAL) = VolStatus.NORMAL ↔ 7/10 ≤ v ∧ v ≤ 13/10) := by
  simp only [jsGT, jsLT, decide_eq_true_eq]
  split_ifs with h1 h2
  · exact ⟨⟨fun _ => h1, fun _ => rfl⟩,
      ⟨False.elim, fun hx => by linarith⟩,
      ⟨False.elim, fun hx => absurd hx.2 (not_le.mpr h1)⟩⟩
  · exact ⟨⟨False.elim, fun hx => absurd hx h1⟩,
      ⟨fun _ => h2, fun _ => rfl⟩,
      ⟨False.elim, fun hx => absurd hx.1 (not_le.mpr h2)⟩⟩
  · exact ⟨⟨False.elim, fun hx => absurd hx h1⟩,
      ⟨False.elim, fun hx => absurd hx h2⟩,
      ⟨fun _ => ⟨not_lt.mp h2, not_lt.mp h1⟩, fun _ => rfl⟩⟩

/-- C6: for each horizon independently, the comparator computes
`ratio = actualRange / impliedDailyMove` with `actualRange = dayHigh -
dayLow`, and classifies `HIGH_VOL` exactly when the ratio exceeds 1.3,
`LOW_VOL` exactly when it is below 0.7, and `NORMAL` otherwise (so a ratio
of exactly 1.3 or 0.7 is `NORMAL`). -/
theorem C6_calculateRealtime_spec
    (snapshotSpot weeklyIdm monthlyIdm currentPrice high low : ℚ) (now ts : Int) :
    (calculateRealtime snapshotSpot weeklyIdm monthlyIdm currentPrice high low now
        ts).actualRange = high - low ∧
    (calculateRealtime snapshotSpot weeklyIdm monthlyIdm currentPrice high low now
        ts).weeklySurpriseRatio = jsDiv (high - low) weeklyIdm ∧
    (calculateRealtime snapshotSpot weeklyIdm monthlyIdm currentPrice high low now
        ts).monthlySurpriseRatio = jsDiv (high - low) monthlyIdm ∧
    (weeklyIdm ≠ 0 →
      ((calculateRealtime snapshotSpot weeklyIdm monthlyIdm currentPrice high low now
          ts).weeklyStatus = VolStatus.HIGH_VOL ↔ 13/10 < (high - low) / weeklyIdm) ∧
      ((calculateRealtime snapshotSpot weeklyIdm monthlyIdm currentPrice high low now
          ts).weeklyStatus = VolStatus.LOW_VOL ↔ (high - low) / weeklyIdm < 7/10) ∧
      ((calculateRealtime snapshotSpot weeklyIdm monthlyIdm currentPrice high low now
          ts).weeklyStatus = VolStatus.NORMAL ↔
        7/10 ≤ (high - low) / weeklyIdm ∧ (high - low) / weeklyIdm ≤ 13/10)) ∧
    (monthlyIdm ≠ 0 →
      ((calculateRealtime snapshotSpot weeklyIdm monthlyIdm currentPrice high low now
          ts).monthlyStatus = VolStatus.HIGH_VOL ↔ 13/10 < (high - low) / monthlyIdm) ∧
      ((calculateRealtime snapshotSpot weeklyIdm monthlyIdm currentPrice high low now
          ts).monthlyStatus = VolStatus.LOW_VOL ↔ (high - low) / monthlyIdm < 7/10) ∧
      ((calculateRealtime snapshotSpot weeklyIdm monthlyIdm currentPrice high low now
          ts).monthlyStatus = VolStatus.NORMAL ↔
        7/10 ≤ (high - low) / monthlyIdm ∧ (high - low) / monthlyIdm ≤ 13/10)) := by
  refine ⟨rfl, rfl, rfl, fun hw => ?_, fun hm => ?_⟩
  · have hd : jsDiv (high - low) weeklyIdm = JsVal.fin ((high - low) / weeklyIdm) := by
      simp [jsDiv, hw]
    have : (calculateRealtime snapshotSpot weeklyIdm monthlyIdm currentPrice high low now
        ts).weeklyStatus =
        (if jsGT (JsVal.fin ((high - low) / weeklyIdm)) (13/10) then VolStatus.HIGH_VOL
         else if jsLT (JsVal.fin ((high - low) / weeklyIdm)) (7/10) then VolStatus.LOW_VOL
         else VolStatus.NORMAL) := by
      simp only [calculateRealtime, hd]
    rw [this]
    exact volStatus_classify ((high - low) / weeklyIdm)
  · have hd : jsDiv (high - low) monthlyIdm = JsVal.fin ((high - low) / monthlyIdm) := by
      simp [jsDiv, hm]
    have : (calculateRealtime snapshotSpot weeklyIdm monthlyIdm currentPrice high low now
        ts).monthlyStatus =
        (if jsGT (JsVal.fin ((high - low) / monthlyIdm)) (13/10) then VolStatus.HIGH_VOL
         else if jsLT (JsVal.fin ((high - low) / monthlyIdm)) (7/10) then VolStatus.LOW_VOL
         else VolStatus.NORMAL) := by
      simp only [calculateRealtime, hd]
    rw [this]
    exact volStatus_classify ((high - low) / monthlyIdm)

/-- Witness for C6 at the spec's end-to-end figures (implied daily move
1100 against ranges 1680, 420 and 1100) and at the exact 1.3 boundary. -/
theorem C6_calculateRealtime_spec_witness :
    (calculateRealtime 42000 1100 1100 42000 1680 0 0 0).weeklyStatus =
      VolStatus.HIGH_VOL ∧
    (calculateRealtime 42000 1100 1100 42000 420 0 0 0).weeklyStatus =
      VolStatus.LOW_VOL ∧
    (calculateRealtime 42000 1100 1100 42000 1100 0 0 0).monthlyStatus =
      VolStatus.NORMAL ∧
    (calculateRealtime 42000 1 1 42000 (13/10) 0 0 0).weeklyStatus =
      VolStatus.NORMAL := by
  refine ⟨?_, ?_, ?_, ?_⟩
  · exact ((C6_calculateRealtime_spec 42000 1100 1100 42000 1680 0 0 0).2.2.2.1
      (by norm_num)).1.mpr (by norm_num)
  · exact (((C6_calculateRealtime_spec 42000 1100 1100 42000 420 0 0 0).2.2.2.1
      (by norm_num)).2.1).mpr (by norm_num)
  · exact (((C6_calculateRealtime_spec 42000 1100 1100 42000 1100 0 0 0).2.2.2.2
      (by norm_num)).2.2).mpr ⟨by norm_num, by norm_num⟩
  · exact (((C6_calculateRealtime_spec 42000 1 1 42000 (13/10) 0 0 0).2.2.2.1
      (by norm_num)).2.2).mpr ⟨by norm_num, by norm_num⟩

/-- C1: the implied daily move computed by `getOptionData` equals
`spot * (atmIV / 100) / sqrt 365`; that function is monotonically
increasing in spot and in the IV for non-negative inputs; and it does not
depend on the contract's expiry — two contracts with the same spot and
ticker but different expiry timestamps receive the same implied daily
move. -/
theorem C1_impliedDailyMove_spec :
    (∀ (name : String) (t : Ticker) (strike : ℚ) (expiry now : Int) (spot : ℚ),
      optionImpliedDailyMove (getOptionData name t strike expiry now spot) =
        (spot : ℝ) * (((getOptionData name t strike expiry now spot).atmIV : ℝ) / 100) /
          Real.sqrt 365) ∧
    (∀ s₁ s₂ iv : ℝ, 0 ≤ iv → s₁ ≤ s₂ →
      impliedDailyMove s₁ iv ≤ impliedDailyMove s₂ iv) ∧
    (∀ s iv₁ iv₂ : ℝ, 0 ≤ s → iv₁ ≤ iv₂ →
      impliedDailyMove s iv₁ ≤ impliedDailyMove s iv₂) ∧
    (∀ (name : String) (t : Ticker) (strike : ℚ) (e₁ e₂ now : Int) (spot : ℚ),
      optionImpliedDailyMove (getOptionData name t strike e₁ now spot) =
        optionImpliedDailyMove (getOptionData name t strike e₂ now spot)) := by
  have hsqrt : (0 : ℝ) < Real.sqrt 365 := Real.sqrt_pos.mpr (by norm_num)
  refine ⟨fun name t strike expiry now spot => rfl, ?_, ?_,
    fun name t strike e₁ e₂ now spot => rfl⟩
  · intro s₁ s₂ iv hiv hs
    simp only [impliedDailyMove]
    exact div_le_div_of_nonneg_right
      (mul_le_mul_of_nonneg_right hs (by positivity)) hsqrt.le
  · intro s iv₁ iv₂ hs hiv
    simp only [impliedDailyMove]
    refine div_le_div_of_nonneg_right (mul_le_mul_of_nonneg_left ?_ hs) hsqrt.le
    exact div_le_div_of_nonneg_right hiv (by norm_num)

/-- Witness for C1: monotonicity applied at concrete spots 1 ≤ 2 and IVs
1 ≤ 2, and the formula at a concrete contract. -/
theorem C1_impliedDailyMove_spec_witness :
    impliedDailyMove 1 1 ≤ impliedDailyMove 2 1 ∧
    impliedDailyMove 1 1 ≤ impliedDailyMove 1 2 ∧
    optionImpliedDailyMove (getOptionData "W" ⟨some 50, some 50, some 50⟩ 100 0 0 42000) =
      (42000 : ℝ) *
        (((getOptionData "W" ⟨some 50, some 50, some 50⟩ 100 0 0 42000).atmIV : ℝ) / 100) /
        Real.sqrt 365 :=
  ⟨C1_impliedDailyMove_spec.2.1 1 2 1 zero_le_one one_le_two,
   C1_impliedDailyMove_spec.2.2.1 1 1 2 zero_le_one one_le_two,
   C1_impliedDailyMove_spec.1 "W" ⟨some 50, some 50, some 50⟩ 100 0 0 42000⟩

/-- C8 (counterexample): a ticker with no bid IV, ask IV 50 and mark IV 60
has bid and ask not both present, yet `getOptionData` sets `atmIV` to
`(0 + 50) / 2 = 25`, not to `markIV = 60` — `atmIV` never falls back to
`markIV`. -/
theorem C8_counterexample :
    (getOptionData "W" ⟨none, some 50, some 60⟩ 100 0 0 42000).atmIV = 25 ∧
    (getOptionData "W" ⟨none, some 50, some 60⟩ 100 0 0 42000).markIV = 60 ∧
    (getOptionData "W" ⟨none, some 50, some 60⟩ 100 0 0 42000).atmIV ≠
      (getOptionData "W" ⟨none, some 50, some 60⟩ 100 0 0 42000).markIV := by
  refine ⟨by norm_num [getOptionData, jsOr], by norm_num [getOptionData, jsOr],
    by norm_num [getOptionData, jsOr]⟩

/-- C8 (amended): `atmIV` is always `(bidIV + askIV) / 2` with a missing
bid or ask IV contributing 0 (in particular, when both are present it is
their average); the fallback runs the other way — `markIV` falls back to
`(bidIV + askIV) / 2` when the ticker's mark IV is absent or zero. -/
theorem C8_atmIV_amended :
    ∀ (name : String) (t : Ticker) (strike : ℚ) (expiry now : Int) (spot : ℚ),
      (getOptionData name t strike expiry now spot).atmIV =
        (jsOr t.bid_iv 0 + jsOr t.ask_iv 0) / 2 ∧
      (∀ b a : ℚ, t.bid_iv = some b → t.ask_iv = some a →
        (getOptionData name t strike expiry now spot).atmIV = (b + a) / 2) ∧
      (t.mark_iv = none ∨ t.mark_iv = some 0 →
        (getOptionData name t strike expiry now spot).markIV =
          (getOptionData name t strike expiry now spot).atmIV) := by
  intro name t strike expiry now spot
  refine ⟨rfl, ?_, ?_⟩
  · intro b a hb ha
    simp only [getOptionData, hb, ha, jsOr_some_zero]
  · intro hm
    rcases hm with hm | hm <;> simp [getOptionData, jsOr, hm]

/-- Witness for C8 (amended) at a ticker with bid IV 40, ask IV 60 and no
mark IV: `atmIV = 50` and `markIV` falls back to it. -/
theorem C8_atmIV_amended_witness :
    (getOptionData "W" ⟨some 40, some 60, none⟩ 100 0 0 42000).atmIV = (40 + 60) / 2 ∧
    (getOptionData "W" ⟨some 40, some 60, none⟩ 100 0 0 42000).markIV =
      (getOptionData "W" ⟨some 40, some 60, none⟩ 100 0 0 42000).atmIV :=
  ⟨(C8_atmIV_amended "W" ⟨some 40, some 60, none⟩ 100 0 0 42000).2.1 40 60 rfl rfl,
   (C8_atmIV_amended "W" ⟨some 40, some 60, none⟩ 100 0 0 42000).2.2 (Or.inl rfl)⟩

/-- C10: when a leg's ticker reports neither bid IV nor ask IV, that leg's
`atmIV` and hence its `impliedDailyMove` are 0; and the comparator's ratio
division is unguarded: fed an implied daily move of 0 and any positive
actual range, the surprise ratio is a (positive) infinity — not a finite
number — and the status classifies as `HIGH_VOL`. -/
theorem C10_zeroIV_unguarded_division :
    ∀ (name : String) (t : Ticker) (strike : ℚ) (expiry now : Int) (spot : ℚ),
      t.bid_iv = none → t.ask_iv = none →
      (getOptionData name t strike expiry now spot).atmIV = 0 ∧
      optionImpliedDailyMove (getOptionData name t strike expiry now spot) = 0 ∧
      (∀ (snapshotSpot monthlyIdm currentPrice high low : ℚ) (now2 ts : Int),
        0 < high - low →
        (calculateRealtime snapshotSpot 0 monthlyIdm currentPrice high low now2
            ts).weeklySurpriseRatio = JsVal.posInf ∧
        (∀ q : ℚ, (calculateRealtime snapshotSpot 0 monthlyIdm currentPrice high low now2
            ts).weeklySurpriseRatio ≠ JsVal.fin q) ∧
        (calculateRealtime snapshotSpot 0 monthlyIdm currentPrice high low now2
            ts).weeklyStatus = VolStatus.HIGH_VOL) := by
  intro name t strike expiry now spot hb ha
  have hatm : (getOptionData name t strike expiry now spot).atmIV = 0 := by
    simp [getOptionData, jsOr, hb, ha]
  refine ⟨hatm, ?_, ?_⟩
  · simp [optionImpliedDailyMove, impliedDailyMove, hatm]
  · intro snapshotSpot monthlyIdm currentPrice high low now2 ts hrange
    have hratio : (calculateRealtime snapshotSpot 0 monthlyIdm currentPrice high low now2
        ts).weeklySurpriseRatio = JsVal.posInf := by
      simp [calculateRealtime, jsDiv, hrange]
    refine ⟨hratio, fun q => by rw [hratio]; exact fun h => JsVal.noConfusion h, ?_⟩
    have : (calculateRealtime snapshotSpot 0 monthlyIdm currentPrice high low now2
        ts).weeklyStatus =
        (if jsGT JsVal.posInf (13/10) then VolStatus.HIGH_VOL
         else if jsLT JsVal.posInf (7/10) then VolStatus.LOW_VOL
         else VolStatus.NORMAL) := by
      simp only [calculateRealtime]
      rw [show jsDiv (high - low) 0 = JsVal.posInf from by
        simp [jsDiv, hrange]]
    rw [this]
    rfl

/-- Witness for C10: a ticker with neither bid nor ask IV gives
`atmIV = 0` and implied daily move 0, and the comparator on implied daily
move 0 with a positive range 1680 classifies `HIGH_VOL` with an infinite
ratio. -/
theorem C10_zeroIV_unguarded_division_witness :
    (getOptionData "W" ⟨none, none, some 60⟩ 100 0 0 42000).atmIV = 0 ∧
    optionImpliedDailyMove (getOptionData "W" ⟨none, none, some 60⟩ 100 0 0 42000) = 0 ∧
    (calculateRealtime 42000 0 0 42000 1680 0 0 0).weeklySurpriseRatio = JsVal.posInf ∧
    (calculateRealtime 42000 0 0 42000 1680 0 0 0).weeklyStatus = VolStatus.HIGH_VOL := by
  obtain ⟨h1, h2, h3⟩ :=
    C10_zeroIV_unguarded_division "W" ⟨none, none, some 60⟩ 100 0 0 42000 rfl rfl
  obtain ⟨h4, _, h6⟩ := h3 42000 0 42000 1680 0 0 0 (by norm_num)
  exact ⟨h1, h2, h4, h6⟩

/-- C9: snapshot construction is all-or-nothing — when either leg's ATM
selection returns `none`, `createDailySnapshot` fails with the build error
and produces no snapshot, and the refresh endpoint leaves the previously
published snapshot in place. -/
theorem C9_snapshot_all_or_nothing (now : Int) (spot : ℚ) (options : List OptionQuote)
    (tickers : String → Ticker) (prev : Option DailySnapshot)
    (h : findATMStrike options (getNextFriday now) spot = none ∨
      findATMStrike options (finalMonthlyExpiry now) spot = none) :
    createDailySnapshot now spot options tickers =
      Except.error "Could not find ATM options" ∧
    refreshSnapshot prev now spot options tickers = prev := by
  have hc : createDailySnapshot now spot options tickers =
      Except.error "Could not find ATM options" := by
    rcases h with h | h
    · simp [createDailySnapshot, h]
    · cases hw : findATMStrike options (getNextFriday now) spot <;>
        simp [createDailySnapshot, h, hw]
  refine ⟨hc, ?_⟩
  simp [refreshSnapshot, hc]

/-- Witness for C9: an empty option chain fails both legs; the build
errors and a previously published snapshot survives the failed refresh. -/
theorem C9_snapshot_all_or_nothing_witness :
    createDailySnapshot 0 42000 [] (fun _ => ⟨none, none, none⟩) =
      Except.error "Could not find ATM options" ∧
    refreshSnapshot (some snapZero) 0 42000 [] (fun _ => ⟨none, none, none⟩) =
      some snapZero :=
  C9_snapshot_all_or_nothing 0 42000 [] (fun _ => ⟨none, none, none⟩) (some snapZero)
    (Or.inl rfl)

/-- C2 (code bug): at `now` = 2025-01-27 00:00 UTC the weekly expiry and the
current month's last Friday coincide (both 2025-01-31 08:00 UTC, a
day-31 Friday).  The collision correction of `createDailySnapshot` is
supposed to move the monthly leg to the last Friday of the following month,
2025-02-28 08:00 UTC, but `setUTCMonth(getUTCMonth()+1)` applied to Jan 31
overflows (Feb 31 normalizes to Mar 3), so the code resolves the monthly
leg to the last Friday of March, 2025-03-28 08:00 UTC, skipping February
entirely. -/
theorem C2_collision_monthOverflow :
    getNextFriday (utcMs 2025 1 27 0) = utcMs 2025 1 31 8 ∧
    getMonthlyExpiry (utcMs 2025 1 27 0) = utcMs 2025 1 31 8 ∧
    getLastFridayOfMonth 2025 1 = utcMs 2025 2 28 8 ∧
    finalMonthlyExpiry (utcMs 2025 1 27 0) = utcMs 2025 3 28 8 ∧
    utcMs 2025 3 28 8 ≠ utcMs 2025 2 28 8 := by
  refine ⟨by decide, by decide, by decide, by decide, by decide⟩

/-- The closest-strike scan of `findATMStrike`: folding the tie-keeping
minimum over `l` starting from `b` yields the first-encountered minimizer
of `|strike - spot|` in `b :: l`. -/
theorem foldl_closest (spotPrice : ℚ) :
    ∀ (l : List OptionQuote) (b : OptionQuote),
      IsFirstClosest spotPrice (b :: l)
        (l.foldl
          (fun closest opt =>
            if |opt.strike - spotPrice| < |closest.strike - spotPrice| then opt
            else closest)
          b) := by
  intro l
  induction l with
  | nil =>
    intro b
    exact ⟨[], [], rfl, by simp, by simp⟩
  | cons x xs ih =>
    intro b
    simp only [List.foldl_cons]
    by_cases hx : |x.strike - spotPrice| < |b.strike - spotPrice|
    · rw [if_pos hx]
      obtain ⟨l₁, l₂, hdec, hbef, haft⟩ := ih x
      refine ⟨b :: l₁, l₂, by rw [List.cons_append, ← hdec], ?_, haft⟩
      intro e he
      rcases List.mem_cons.mp he with rfl | he'
      · cases l₁ with
        | nil =>
          simp only [List.nil_append, List.cons.injEq] at hdec
          rw [← hdec.1]
          exact hx
        | cons a l₁' =>
          simp only [List.cons_append, List.cons.injEq] at hdec
          have hxmem : x ∈ a :: l₁' := by rw [hdec.1]; exact List.mem_cons_self a l₁'
          exact lt_trans (hbef x hxmem) hx
      · exact hbef e he'
    · rw [if_neg hx]
      obtain ⟨l₁, l₂, hdec, hbef, haft⟩ := ih b
      cases l₁ with
      | nil =>
        simp only [List.nil_append, List.cons.injEq] at hdec
        refine ⟨[], x :: xs, ?_, by simp, ?_⟩
        · rw [List.nil_append]
          exact congrArg (fun z => z :: x :: xs) hdec.1
        · intro e he
          rcases List.mem_cons.mp he with rfl | he'
          · rw [← hdec.1]
            exact not_lt.mp hx
          · exact haft e (hdec.2 ▸ he')
      | cons a l₁' =>
        simp only [List.cons_append, List.cons.injEq] at hdec
        obtain ⟨hba, hxs⟩ := hdec
        subst hba
        have hrb := hbef b (List.mem_cons_self b l₁')
        refine ⟨b :: x :: l₁', l₂, ?_, ?_, haft⟩
        · rw [List.cons_append, List.cons_append, ← hxs]
        · intro e he
          rcases List.mem_cons.mp he with rfl | he'
          · exact hrb
          · rcases List.mem_cons.mp he' with rfl | he''
            · exact lt_of_lt_of_le hrb (not_lt.mp hx)
            · exact hbef e (List.mem_cons_of_mem b he'')

/-- C3: ATM selection returns `none` exactly when no quote in the chain
matches the target expiry within the one-hour tolerance window; otherwise
it returns a matching quote whose `|strike - spot|` is minimal among the
matching quotes, with ties broken in favour of the first-encountered
matching quote. -/
theorem C3_findATMStrike_spec (options : List OptionQuote) (expiryTime : Int)
    (spotPrice : ℚ) :
    (options.filter
        (fun opt => |opt.expiration_timestamp - expiryTime| < 3600000) = [] →
      findATMStrike options expiryTime spotPrice = none) ∧
    (options.filter
        (fun opt => |opt.expiration_timestamp - expiryTime| < 3600000) ≠ [] →
      ∃ q, findATMStrike options expiryTime spotPrice = some q ∧
        IsFirstClosest spotPrice
          (options.filter
            (fun opt => |opt.expiration_timestamp - expiryTime| < 3600000)) q) := by
  constructor
  · intro h
    simp [findATMStrike, h]
  · intro h
    obtain ⟨first, rest, hfr⟩ := List.exists_cons_of_ne_nil h
    have hred : findATMStrike options expiryTime spotPrice =
        some ((first :: rest).foldl
          (fun closest opt =>
            if |opt.strike - spotPrice| < |closest.strike - spotPrice| then opt
            else closest)
          first) := by
      simp only [findATMStrike, hfr]
    rw [hred, hfr]
    have hself : ((first :: rest).foldl
        (fun closest opt =>
          if |opt.strike - spotPrice| < |closest.strike - spotPrice| then opt
          else closest)
        first) =
        (rest.foldl
          (fun closest opt =>
            if |opt.strike - spotPrice| < |closest.strike - spotPrice| then opt
            else closest)
          first) := by
      simp only [List.foldl_cons, if_neg (lt_irrefl _)]
    rw [hself]
    exact ⟨_, rfl, foldl_closest spotPrice rest first⟩

/-- Witness for C3: in a chain with strikes 90 and 110 around spot 100 at
the target expiry (tied distance 10) and a third quote outside the
tolerance window, selection returns the first-encountered tied quote. -/
theorem C3_findATMStrike_spec_witness :
    ∃ q, findATMStrike
        [⟨"A", 0, 90⟩, ⟨"B", 0, 110⟩, ⟨"C", 999999999, 95⟩] 0 100 = some q ∧
      IsFirstClosest 100
        (List.filter (fun opt => |opt.expiration_timestamp - (0 : Int)| < 3600000)
          [⟨"A", 0, 90⟩, ⟨"B", 0, 110⟩, ⟨"C", 999999999, 95⟩]) q :=
  (C3_findATMStrike_spec [⟨"A", 0, 90⟩, ⟨"B", 0, 110⟩, ⟨"C", 999999999, 95⟩] 0 100).2
    (by decide)

theorem removeDateRecord_of_not_mem (records : List DailyRecord) (date : String)
    (h : ∀ r ∈ records, r.date ≠ date) : removeDateRecord records date = records := by
  induction records with
  | nil => rfl
  | cons r rs ih =>
    simp only [removeDateRecord]
    rw [if_neg (h r (List.mem_cons_self r rs)), ih (fun x hx => h x (List.mem_cons_of_mem r hx))]

theorem removeDateRecord_length_le (records : List DailyRecord) (date : String) :
    (removeDateRecord records date).length ≤ records.length := by
  induction records with
  | nil => exact Nat.le_refl 0
  | cons r rs ih =>
    simp only [removeDateRecord]
    split_ifs
    · simp only [List.length_cons]
      omega
    · simp only [List.length_cons]
      omega

theorem removeDateRecord_length_of_mem (records : List DailyRecord) (date : String)
    (h : ∃ r ∈ records, r.date = date) :
    (removeDateRecord records date).length + 1 = records.length := by
  induction records with
  | nil =>
    obtain ⟨r, hr, _⟩ := h
    exact absurd hr (List.not_mem_nil r)
  | cons a rs ih =>
    simp only [removeDateRecord]
    split_ifs with ha
    · simp
    · obtain ⟨r, hr, hd⟩ := h
      rcases List.mem_cons.mp hr with rfl | hr'
      · exact absurd hd ha
      · have := ih ⟨r, hr', hd⟩
        simp only [List.length_cons]
        omega

theorem removeDateRecord_no_date (records : List DailyRecord) (date : String)
    (hpw : records.Pairwise (fun a b => a.date ≠ b.date)) :
    ∀ r ∈ removeDateRecord records date, r.date ≠ date := by
  induction records with
  | nil =>
    intro r hr
    exact absurd hr (List.not_mem_nil r)
  | cons a rs ih =>
    obtain ⟨hhead, htail⟩ := List.pairwise_cons.mp hpw
    intro r hr
    simp only [removeDateRecord] at hr
    split_ifs at hr with ha
    · intro hrd
      exact hhead r hr (by rw [ha, hrd])
    · rcases List.mem_cons.mp hr with rfl | hr'
      · exact ha
      · exact ih htail r hr'

/-- C4: the history upsert keeps the store at 30 records or fewer;
inserting a fresh date into a full (30-record) store evicts exactly the
single oldest record, by insertion order; and inserting an already-present
date replaces that record, leaving the record count unchanged. -/
theorem C4_saveDailyRecord_spec (records : List DailyRecord) (date : String)
    (w m p : ℚ) :
    (records.length ≤ 30 → (saveDailyRecord records date w m p).length ≤ 30) ∧
    (records.length = 30 → (∀ r ∈ records, r.date ≠ date) →
      saveDailyRecord records date w m p =
        records.drop 1 ++ [⟨date, w, m, p⟩]) ∧
    ((∃ r ∈ records, r.date = date) → records.length ≤ 30 →
      (saveDailyRecord records date w m p).length = records.length ∧
      (⟨date, w, m, p⟩ : DailyRecord) ∈ saveDailyRecord records date w m p ∧
      (records.Pairwise (fun a b => a.date ≠ b.date) →
        ∀ r ∈ saveDailyRecord records date w m p, r.date = date →
          r = ⟨date, w, m, p⟩)) := by
  refine ⟨?_, ?_, ?_⟩
  · intro h30
    have hle := removeDateRecord_length_le records date
    simp only [saveDailyRecord]
    split_ifs with h
    · simp only [List.length_drop, List.length_append, List.length_cons,
        List.length_nil]
      omega
    · simp only [List.length_append, List.length_cons, List.length_nil] at h ⊢
      omega
  · intro h30 hnone
    have hrm := removeDateRecord_of_not_mem records date hnone
    simp only [saveDailyRecord, hrm]
    rw [if_pos (by simp only [List.length_append, List.length_cons,
      List.length_nil]; omega)]
    cases records with
    | nil => simp at h30
    | cons a rs => simp
  · intro hmem h30
    have hlen := removeDateRecord_length_of_mem records date hmem
    have hform : saveDailyRecord records date w m p =
        removeDateRecord records date ++ [⟨date, w, m, p⟩] := by
      simp only [saveDailyRecord]
      rw [if_neg (by simp only [List.length_append, List.length_cons,
        List.length_nil]; omega)]
    refine ⟨?_, ?_, ?_⟩
    · rw [hform]
      simp only [List.length_append, List.length_cons, List.length_nil]
      omega
    · rw [hform]
      exact List.mem_append.mpr (Or.inr (List.mem_singleton.mpr rfl))
    · intro hpw r hr hrd
      rw [hform] at hr
      rcases List.mem_append.mp hr with hr' | hr'
      · exact absurd hrd (removeDateRecord_no_date records date hpw r hr')
      · exact List.mem_singleton.mp hr'

/-- Witness for C4: the bound and eviction on a concrete full store of 30
distinct dates, and in-place replacement on a store already holding the
date. -/
theorem C4_saveDailyRecord_spec_witness :
    (saveDailyRecord recs30 "31" 2 2 2).length ≤ 30 ∧
    saveDailyRecord recs30 "31" 2 2 2 = recs30.drop 1 ++ [⟨"31", 2, 2, 2⟩] ∧
    (saveDailyRecord [⟨"01", 1, 1, 1⟩, ⟨"02", 1, 1, 1⟩] "02" 5 5 5).length = 2 := by
  refine ⟨?_, ?_, ?_⟩
  · exact (C4_saveDailyRecord_spec recs30 "31" 2 2 2).1 (by decide)
  · exact (C4_saveDailyRecord_spec recs30 "31" 2 2 2).2.1 (by decide) (by decide)
  · exact ((C4_saveDailyRecord_spec [⟨"01", 1, 1, 1⟩, ⟨"02", 1, 1, 1⟩] "02" 5 5 5).2.2
      ⟨⟨"02", 1, 1, 1⟩, by decide, rfl⟩ (by decide)).1

theorem foldl_add_map (f : DailyRecord → ℚ) :
    ∀ (l : List DailyRecord) (a : ℚ),
      l.foldl (fun sum r => sum + f r) a = a + (l.map f).sum := by
  intro l
  induction l with
  | nil => intro a; simp
  | cons x xs ih =>
    intro a
    simp only [List.foldl_cons, List.map_cons, List.sum_cons, ih, add_assoc]

/-- Classification of the three-way trend `if` against the 0.15
threshold. -/
theorem trend_classify (x : ℚ) :
    ((if 3/20 < x then Trend.UP
      else if x < -(3/20) then Trend.DOWN else Trend.FLAT) = Trend.UP ↔
        3/20 < x) ∧
    ((if 3/20 < x then Trend.UP
      else if x < -(3/20) then Trend.DOWN else Trend.FLAT) = Trend.DOWN ↔
        x < -(3/20)) ∧
    ((if 3/20 < x then Trend.UP
      else if x < -(3/20) then Trend.DOWN else Trend.FLAT) = Trend.FLAT ↔
        -(3/20) ≤ x ∧ x ≤ 3/20) := by
  split_ifs with h1 h2
  · exact ⟨⟨fun _ => h1, fun _ => rfl⟩,
      ⟨False.elim, fun hx => by linarith⟩,
      ⟨False.elim, fun hx => absurd hx.2 (not_le.mpr h1)⟩⟩
  · exact ⟨⟨False.elim, fun hx => absurd hx h1⟩,
      ⟨fun _ => h2, fun _ => rfl⟩,
      ⟨False.elim, fun hx => absurd hx.1 (not_le.mpr h2)⟩⟩
  · exact ⟨⟨False.elim, fun hx => absurd hx h1⟩,
      ⟨False.elim, fun hx => absurd hx h2⟩,
      ⟨fun _ => ⟨not_lt.mp h2, not_lt.mp h1⟩, fun _ => rfl⟩⟩

/-- C5: stats with fewer than 3 records is the sentinel result; with 3 or
more records `daysTracked` is the record count and the averages are the
simple means over all retained records; with 3 to 5 records both trends
are `FLAT`; with 6 or more records each trend compares the mean of the
most recent 3 records against the mean of the preceding 3, `UP` above
0.15, `DOWN` below -0.15, `FLAT` otherwise. -/
theorem C5_calculateHistoricalStats_spec (records : List DailyRecord) :
    (records.length < 3 →
      calculateHistoricalStats records =
        { weeklyAvgSurprise := 0, weeklyTrend := Trend.FLAT,
          monthlyAvgSurprise := 0, monthlyTrend := Trend.FLAT,
          daysTracked := 0 }) ∧
    (3 ≤ records.length →
      (calculateHistoricalStats records).daysTracked = records.length ∧
      (calculateHistoricalStats records).weeklyAvgSurprise =
        (records.map (fun r => r.weeklySurprise)).sum / (records.length : ℚ) ∧
      (calculateHistoricalStats records).monthlyAvgSurprise =
        (records.map (fun r => r.monthlySurprise)).sum / (records.length : ℚ)) ∧
    (3 ≤ records.length → records.length ≤ 5 →
      (calculateHistoricalStats records).weeklyTrend = Trend.FLAT ∧
      (calculateHistoricalStats records).monthlyTrend = Trend.FLAT) ∧
    (6 ≤ records.length →
      (((calculateHistoricalStats records).weeklyTrend = Trend.UP ↔
          3/20 <
            ((records.drop (records.length - 3)).map
              (fun r => r.weeklySurprise)).sum / 3 -
            (((records.drop (records.length - 6)).take 3).map
              (fun r => r.weeklySurprise)).sum / 3) ∧
        ((calculateHistoricalStats records).weeklyTrend = Trend.DOWN ↔
          ((records.drop (records.length - 3)).map
              (fun r => r.weeklySurprise)).sum / 3 -
            (((records.drop (records.length - 6)).take 3).map
              (fun r => r.weeklySurprise)).sum / 3 < -(3/20)) ∧
        ((calculateHistoricalStats records).weeklyTrend = Trend.FLAT ↔
          -(3/20) ≤
            ((records.drop (records.length - 3)).map
              (fun r => r.weeklySurprise)).sum / 3 -
            (((records.drop (records.length - 6)).take 3).map
              (fun r => r.weeklySurprise)).sum / 3 ∧
          ((records.drop (records.length - 3)).map
              (fun r => r.weeklySurprise)).sum / 3 -
            (((records.drop (records.length - 6)).take 3).map
              (fun r => r.weeklySurprise)).sum / 3 ≤ 3/20)) ∧
      (((calculateHistoricalStats records).monthlyTrend = Trend.UP ↔
          3/20 <
            ((records.drop (records.length - 3)).map
              (fun r => r.monthlySurprise)).sum / 3 -
            (((records.drop (records.length - 6)).take 3).map
              (fun r => r.monthlySurprise)).sum / 3) ∧
        ((calculateHistoricalStats records).monthlyTrend = Trend.DOWN ↔
          ((records.drop (records.length - 3)).map
              (fun r => r.monthlySurprise)).sum / 3 -
            (((records.drop (records.length - 6)).take 3).map
              (fun r => r.monthlySurprise)).sum / 3 < -(3/20)) ∧
        ((calculateHistoricalStats records).monthlyTrend = Trend.FLAT ↔
          -(3/20) ≤
            ((records.drop (records.length - 3)).map
              (fun r => r.monthlySurprise)).sum / 3 -
            (((records.drop (records.length - 6)).take 3).map
              (fun r => r.monthlySurprise)).sum / 3 ∧
          ((records.drop (records.length - 3)).map
              (fun r => r.monthlySurprise)).sum / 3 -
            (((records.drop (records.length - 6)).take 3).map
              (fun r => r.monthlySurprise)).sum / 3 ≤ 3/20))) := by
  refine ⟨?_, ?_, ?_, ?_⟩
  · intro h
    simp [calculateHistoricalStats, h]
  · intro h3
    have hnot : ¬records.length < 3 := not_lt.mpr h3
    refine ⟨?_, ?_, ?_⟩ <;>
      simp [calculateHistoricalStats, hnot, foldl_add_map]
  · intro h3 h5
    have hnot : ¬records.length < 3 := not_lt.mpr h3
    have h6 : ¬6 ≤ records.length := by omega
    constructor <;> simp [calculateHistoricalStats, hnot, h6]
  · intro h6
    have hnot : ¬records.length < 3 := by omega
    have hred :
        (calculateHistoricalStats records).weeklyTrend =
          (if 3/20 <
              ((records.drop (records.length - 3)).map
                (fun r => r.weeklySurprise)).sum / 3 -
              (((records.drop (records.length - 6)).take 3).map
                (fun r => r.weeklySurprise)).sum / 3 then Trend.UP
           else if
              ((records.drop (records.length - 3)).map
                (fun r => r.weeklySurprise)).sum / 3 -
              (((records.drop (records.length - 6)).take 3).map
                (fun r => r.weeklySurprise)).sum / 3 < -(3/20) then Trend.DOWN
           else Trend.FLAT) ∧
        (calculateHistoricalStats records).monthlyTrend =
          (if 3/20 <
              ((records.drop (records.length - 3)).map
                (fun r => r.monthlySurprise)).sum / 3 -
              (((records.drop (records.length - 6)).take 3).map
                (fun r => r.monthlySurprise)).sum / 3 then Trend.UP
           else if
              ((records.drop (records.length - 3)).map
                (fun r => r.monthlySurprise)).sum / 3 -
              (((records.drop (records.length - 6)).take 3).map
                (fun r => r.monthlySurprise)).sum / 3 < -(3/20) then Trend.DOWN
           else Trend.FLAT) := by
      constructor <;> simp [calculateHistoricalStats, hnot, h6, foldl_add_map]
    rw [hred.1, hred.2]
    exact ⟨trend_classify _, trend_classify _⟩

/-- Witness for C5: the sentinel on a 2-record store, count and flat
trends on a 3-record store, and an `UP` weekly trend on a 6-record store
whose most recent 3 records average 0.5 higher than the preceding 3. -/
theorem C5_calculateHistoricalStats_spec_witness :
    calculateHistoricalStats [⟨"a", 1, 1, 1⟩, ⟨"b", 1, 1, 1⟩] =
      { weeklyAvgSurprise := 0, weeklyTrend := Trend.FLAT,
        monthlyAvgSurprise := 0, monthlyTrend := Trend.FLAT,
        daysTracked := 0 } ∧
    (calculateHistoricalStats
      [⟨"a", 1, 1, 1⟩, ⟨"b", 1, 1, 1⟩, ⟨"c", 1, 1, 1⟩]).daysTracked = 3 ∧
    (calculateHistoricalStats
      [⟨"a", 1, 1, 1⟩, ⟨"b", 1, 1, 1⟩, ⟨"c", 1, 1, 1⟩]).weeklyTrend = Trend.FLAT ∧
    (calculateHistoricalStats
      [⟨"a", 1, 1, 1⟩, ⟨"b", 1, 1, 1⟩, ⟨"c", 1, 1, 1⟩,
       ⟨"d", 3/2, 3/2, 1⟩, ⟨"e", 3/2, 3/2, 1⟩, ⟨"f", 3/2, 3/2, 1⟩]).weeklyTrend =
      Trend.UP := by
  refine ⟨?_, ?_, ?_, ?_⟩
  · exact (C5_calculateHistoricalStats_spec [⟨"a", 1, 1, 1⟩, ⟨"b", 1, 1, 1⟩]).1
      (by decide)
  · exact ((C5_calculateHistoricalStats_spec
      [⟨"a", 1, 1, 1⟩, ⟨"b", 1, 1, 1⟩, ⟨"c", 1, 1, 1⟩]).2.1 (by decide)).1
  · exact ((C5_calculateHistoricalStats_spec
      [⟨"a", 1, 1, 1⟩, ⟨"b", 1, 1, 1⟩, ⟨"c", 1, 1, 1⟩]).2.2.1 (by decide)
        (by decide)).1
  · exact (((C5_calculateHistoricalStats_spec
      [⟨"a", 1, 1, 1⟩, ⟨"b", 1, 1, 1⟩, ⟨"c", 1, 1, 1⟩,
       ⟨"d", 3/2, 3/2, 1⟩, ⟨"e", 3/2, 3/2, 1⟩, ⟨"f", 3/2, 3/2, 1⟩]).2.2.2
        (by decide)).1.1).mpr (by norm_num)
